import Mathlib

/-!
Verification of the poe-build-search ingestion and validation pipeline.

The definitions below are a shallow embedding of the Python sources:
  * `src/scraper/base.py`       — garbage detection, combat-style / specialty
                                   classifiers, semantic validation, the
                                   three-layer validation pipeline
                                   (`save_builds_to_db`),
  * `src/scraper/llm_extractor.py` — the LLM-backed field extractor,
  * `src/scraper/mobalytics.py` / `src/scraper/maxroll.py` — the per-source
                                   normalizers (`_normalize_build`),
  * `src/scraper/youtube.py`    — `extract_build_from_transcript`.

Python strings are modelled as Lean `String` (length counts codepoints, as
Python `len` does); machine integers do not occur in the decision logic.
External effects (the backing Claude CLI text-generation service, stdlib
`json.loads` on arbitrary text, the database) are modelled as explicit
parameters / result lists so every function here is executable.
-/

/-! ## Python string primitives used by the sources -/

/-- Python truthiness-aware `a or b` on optional strings:
`None` and `""` are falsy and fall through to the default. -/
def pyOrS (a : Option String) (dflt : String) : String :=
  match a with
  | none => dflt
  | some s => if s = "" then dflt else s

/-- Python `a or b` chains on optional lists: `None` and `[]` are falsy. -/
def pyOrL {α : Type} (a : Option (List α)) (dflt : List α) : List α :=
  match a with
  | none => dflt
  | some l => if l.isEmpty then dflt else l

/-- Python truthiness of an optional boolean (`None` falsy). -/
def pyTruthyB (a : Option Bool) : Bool :=
  match a with
  | none => false
  | some b => b

/-- Python `a or 0` on optional integers (`None` and `0` falsy). -/
def pyOrI (a : Option Int) (dflt : Int) : Int :=
  match a with
  | none => dflt
  | some v => if v = 0 then dflt else v

/-- Python truthiness of an optional string field of a dict:
`d.get(k)` is falsy when the key is absent or holds `None` / `""`. -/
def pyFalsyS (a : Option String) : Bool :=
  match a with
  | none => true
  | some s => s = ""

/-- `pat.isPrefixOf l` specialised to characters (decidable equality). -/
def charsPrefix : List Char → List Char → Bool
  | [], _ => true
  | _ :: _, [] => false
  | p :: ps, c :: cs => p = c && charsPrefix ps cs

/-- Python `pat in text` (substring containment) on character lists. -/
def charsContains (pat : List Char) : List Char → Bool
  | [] => pat.isEmpty
  | c :: rest => charsPrefix pat (c :: rest) || charsContains pat rest

/-- Python `pat in text` on strings. -/
def strContains (text pat : String) : Bool :=
  charsContains pat.toList text.toList

/-- Python `text.count(c)` for a single character. -/
def countChar (c : Char) (l : List Char) : Nat :=
  l.count c

/-- Python `text.count('":')`: number of (non-overlapping) occurrences of
the two-character substring quote-colon.  The two characters differ, so
overlap is impossible and the left-to-right scan below is exact. -/
def countQuoteColon : List Char → Nat
  | [] => 0
  | [_] => 0
  | a :: b :: rest =>
    if a = '"' ∧ b = ':' then 1 + countQuoteColon rest
    else countQuoteColon (b :: rest)

/-- Python `str.strip()`: drop whitespace from both ends. -/
def pyStrip (l : List Char) : List Char :=
  ((l.dropWhile Char.isWhitespace).reverse.dropWhile Char.isWhitespace).reverse

/-- Python `str.lower()` (per-character ASCII lowering, as `Char.toLower`;
the texts involved carry no special-casing codepoints). -/
def toLowerPy (s : String) : String :=
  String.mk (s.data.map Char.toLower)

/-- Python slice `s[:n]` (codepoint prefix). -/
def pyTake (n : Nat) (s : String) : String :=
  String.mk (s.data.take n)

/-- Python `s.replace(a, b)` for single-character `a`, `b`. -/
def replaceChar (a b : Char) (s : String) : String :=
  String.mk (s.data.map (fun c => if c = a then b else c))

/-! ## `src/scraper/base.py` lines 43-60: the garbage detector -/

/-- `GARBAGE_PATTERNS` (base.py lines 43-46). -/
def GARBAGE_PATTERNS : List String :=
  ["__typename", "NgfDocument", "apolloState", "__APOLLO_STATE__",
   "__NEXT_DATA__", "graphql", "\"edges\":", "\"node\":", "\"cursor\":"]

/-- The brace / quote-colon census of `is_garbage_text`
(base.py line 57): `text.count(&) + text.count(&) + text.count(quote-colon)`
with the two brace characters. -/
def jsonCharsCount (text : String) : Nat :=
  countChar '\x7b' text.toList + countChar '\x7d' text.toList +
    countQuoteColon text.toList

/-- `is_garbage_text` (base.py lines 49-60).  The Python float test
`json_chars / len(text) > 0.05` is modelled exactly as the rational
inequality `20 * json_chars > len(text)`. -/
def is_garbage_text (text : String) : Bool :=
  if text = "" then true
  else
    let text_lower := toLowerPy text
    if GARBAGE_PATTERNS.any (fun pattern => strContains text_lower (toLowerPy pattern)) then
      true
    else
      let json_chars := jsonCharsCount text
      if 0 < text.length ∧ 20 * json_chars > text.length then true
      else false

/-! ## `src/scraper/base.py` lines 13-99: the text classifiers -/

/-- `MELEE_KEYWORDS` (base.py lines 14-20). -/
def MELEE_KEYWORDS : List String :=
  ["cyclone", "strike", "slam", "melee", "cleave", "lacerate", "reave",
   "blade flurry", "double strike", "molten strike", "ground slam",
   "earthquake", "tectonic", "boneshatter", "sunder", "heavy strike",
   "viper strike", "spectral throw", "blade vortex", "whirlwind",
   "general\x27s cry", "rage vortex", "perforate", "smite"]

/-- `RANGED_KEYWORDS` (base.py lines 21-26). -/
def RANGED_KEYWORDS : List String :=
  ["bow", "arrow", "shot", "barrage", "rain of arrows", "tornado shot",
   "lightning arrow", "ice shot", "split arrow", "blast rain", "ballista",
   "shrapnel", "galvanic", "kinetic bolt", "kinetic blast", "kinetic fusillade",
   "wand", "power siphon"]

/-- `CASTER_KEYWORDS` (base.py lines 27-34). -/
def CASTER_KEYWORDS : List String :=
  ["spell", "cast", "arc", "fireball", "spark", "ice nova", "freezing pulse",
   "storm call", "orb of storms", "firestorm", "ball lightning", "lightning warp",
   "flame surge", "magma orb", "glacial cascade", "volatile dead", "detonate dead",
   "essence drain", "contagion", "bane", "soulrend", "dark pact", "forbidden rite",
   "cremation", "wave of conviction", "divine ire", "storm brand", "armageddon brand",
   "winter orb", "righteous fire", "wintertide brand"]

/-- `SUMMONER_KEYWORDS` (base.py lines 35-39). -/
def SUMMONER_KEYWORDS : List String :=
  ["summon", "minion", "zombie", "skeleton", "spectre", "golem", "animate",
   "raise", "srs", "phantasm", "carrion", "herald of purity", "dominating blow",
   "absolution"]

/-- `sum(1 for kw in KEYWORDS if kw in text)` (base.py lines 67-70). -/
def scoreKeywords (kws : List String) (text : String) : Nat :=
  kws.countP (fun kw => strContains text kw)

/-- The lowercased concatenation built by `detect_combat_style`
(base.py line 65). -/
def combatText (name : String) (skills : List String) (description : String) : String :=
  toLowerPy (name ++ " " ++ String.intercalate " " skills ++ " " ++ description)

/-- The decision step of `detect_combat_style` (base.py lines 72-78) on the
four scores.  Python takes `top[0]`; `top` is provably non-empty (the
maximum is attained), so the `headD` default is dead code. -/
def styleDecision (sm sr sc ss : Nat) : String :=
  let max_score := max (max sm sr) (max sc ss)
  if max_score = 0 then "hybrid"
  else
    let top :=
      (if sm = max_score then ["melee"] else []) ++
      (if sr = max_score then ["ranged"] else []) ++
      (if sc = max_score then ["caster"] else []) ++
      (if ss = max_score then ["summoner"] else [])
    if 1 < top.length then "hybrid" else top.headD "hybrid"

/-- `detect_combat_style` (base.py lines 63-78). -/
def detect_combat_style (name : String) (skills : List String) (description : String) : String :=
  let text := combatText name skills description
  styleDecision
    (scoreKeywords MELEE_KEYWORDS text)
    (scoreKeywords RANGED_KEYWORDS text)
    (scoreKeywords CASTER_KEYWORDS text)
    (scoreKeywords SUMMONER_KEYWORDS text)

/-- `any(kw in text for kw in kws)` (base.py lines 86-96). -/
def anyKeyword (kws : List String) (text : String) : Bool :=
  kws.any (fun kw => strContains text kw)

/-- The lowercased concatenation built by `detect_specialty` (base.py line 84). -/
def specialtyText (build_types : List String) (description : String) : String :=
  toLowerPy (String.intercalate " " build_types ++ " " ++ description)

/-- `detect_specialty` (base.py lines 81-99). -/
def detect_specialty (build_types : List String) (description : String) : List String :=
  let text := specialtyText build_types description
  let specialties :=
    (if anyKeyword ["starter", "league start", "league-start"] text
      then ["league_starter"] else []) ++
    (if anyKeyword ["boss", "bossing", "boss killer"] text
      then ["boss_killer"] else []) ++
    (if anyKeyword ["map", "mapping", "clear", "farmer", "farming"] text
      then ["map_farmer"] else []) ++
    (if anyKeyword ["all-around", "all around", "all rounder", "versatile"] text
      then ["all_rounder"] else []) ++
    (if anyKeyword ["speed", "fast", "zoom"] text
      then ["speed_farmer"] else []) ++
    (if anyKeyword ["tank", "tanky", "defensive", "survive"] text
      then ["tanky"] else [])
  if specialties.isEmpty then ["all_rounder"] else specialties

/-- Spec-side view of the six specialty keyword groups (spec section 4.2),
used to state that `detect_specialty` returns exactly the labels of the
matched groups. -/
def SPECIALTY_GROUPS : List (String × List String) :=
  [("league_starter", ["starter", "league start", "league-start"]),
   ("boss_killer", ["boss", "bossing", "boss killer"]),
   ("map_farmer", ["map", "mapping", "clear", "farmer", "farming"]),
   ("all_rounder", ["all-around", "all around", "all rounder", "versatile"]),
   ("speed_farmer", ["speed", "fast", "zoom"]),
   ("tanky", ["tank", "tanky", "defensive", "survive"])]

/-- Spec-side: the labels of all matched specialty groups, in group order. -/
def matchedSpecialties (build_types : List String) (description : String) : List String :=
  (SPECIALTY_GROUPS.filterMap (fun g =>
      if anyKeyword g.2 (specialtyText build_types description) then some g.1 else none))

/-! ## `src/scraper/llm_extractor.py`: the LLM-backed field extractor

The backing Claude CLI call (`_call_claude_cli`) is an external service; it
is modelled as an explicit parameter `gen : String → Option String`
(`none` = timeout / non-zero exit / exception, `some out` = stripped
stdout).  The regex section parsing of `_parse_llm_output` for non-empty
output (lines 52-118) is likewise abstracted as a parameter
`parseSections`: no claim exercises that branch, and every theorem below
holds for all instantiations of it. -/

/-- The draft record produced by `_parse_llm_output`
(llm_extractor.py lines 40-48): five optional string slots. -/
structure DraftFields where
  description_en : Option String
  pros_cons_en : Option String
  core_equipment_en : Option String
  class_en : Option String
  ascendancy_en : Option String
deriving DecidableEq, Repr

/-- `_parse_llm_output` (llm_extractor.py lines 40-118): empty output
short-circuits to the all-`None` draft (lines 42-50); non-empty output is
handed to the regex section parser, abstracted here as `parseSections`. -/
def _parse_llm_output (parseSections : String → DraftFields) (output : String) : DraftFields :=
  if output = "" then ⟨none, none, none, none, none⟩
  else parseSections output

/-- The fixed Japanese instruction block of the extraction prompt
(llm_extractor.py lines 138-174); the truncated page text is appended. -/
def llmExtractPrompt (truncated : String) : String :=
  "以下はPath of Exile 1のビルドガイドページから取得したテキストです。\n" ++
  "このテキストからビルドガイドの情報を抽出してください。\n\n" ++
  "重要な注意:\n" ++
  "- サイトのナビゲーション、フッター、プライバシーポリシー、JavaScriptコード、\n" ++
  "  Cookie同意文、広告テキスト、UI操作説明（ドラッグ、スペースバー等）は無視してください\n" ++
  "- ビルドガイドの本文のみを対象にしてください\n" ++
  "- 通貨アイテム（Divine Orb, Chaos Orb, Exalted Orb等）はコア装備に含めないでください\n\n" ++
  "以下の形式で回答してください（英語で）:\n\n" ++
  "DESCRIPTION:\n[ビルドの概要。メイン攻撃スキル、戦闘スタイル（melee/ranged/caster/summoner）、\n 特徴的なシナジーや仕組みを2-3文で説明]\n\n" ++
  "PROS:\n- [長所1]\n- [長所2]\n- [長所3]\n(3-5個)\n\n" ++
  "CONS:\n- [短所1]\n- [短所2]\n- [短所3]\n(3-5個)\n\n" ++
  "CORE_EQUIPMENT:\n- [コア装備/ユニークアイテム/ジュエル1]\n- [コア装備/ユニークアイテム/ジュエル2]\n(主要な装備を3-8個。通貨アイテムは含めないこと)\n\n" ++
  "CLASS: [クラス名（英語）]\nASCENDANCY: [アセンダンシー名（英語）]\n\n" ++
  "ページテキスト:\n" ++ truncated

/-- `extract_build_info_via_llm` (llm_extractor.py lines 121-190).
`gen` is the backing CLI call; `build_name` is only used for logging in
the source and is kept for shape fidelity. -/
def extract_build_info_via_llm (gen : String → Option String)
    (parseSections : String → DraftFields)
    (page_text : String) (build_name : String) : DraftFields :=
  if page_text = "" ∨ (pyStrip page_text.toList).length < 50 then
    _parse_llm_output parseSections ""
  else
    let truncated := pyTake 8000 page_text
    let prompt := llmExtractPrompt truncated
    match gen prompt with
    | none => _parse_llm_output parseSections ""
    | some output =>
      if output = "" then _parse_llm_output parseSections ""
      else _parse_llm_output parseSections output

/-! ## `src/scraper/base.py` lines 128-156: semantic validation -/

/-- The record fields read by the validation pipeline
(`save_builds_to_db` and `validate_build_semantically`).  The full
persisted record carries more columns; only these participate in any
accept / sanitize / reject decision. -/
structure Build where
  source_id : Option String
  name_en : Option String
  description_en : Option String
  pros_cons_en : Option String
  core_equipment_en : Option String
deriving DecidableEq, Repr

/-- The verdict dict returned by `validate_build_semantically`: the parsed
JSON may lack either key, so both are optional; the callers apply
`.get("valid", True)` / `.get("issues", ...)` defaults. -/
structure VerdictDict where
  valid : Option Bool
  issues : Option (List String)
deriving DecidableEq, Repr

/-- Outcome of one backing-service invocation: `failed` models a timeout
or exception, `ok stdout` a completed subprocess call. -/
inductive SvcResult where
  | failed
  | ok (stdout : String)

/-- The semantic-validation prompt (base.py lines 130-141). -/
def semantic_prompt (build : Build) : String :=
  "以下はPoE 1のビルドガイドから抽出したデータです。各フィールドが適切か判定してください。\n" ++
  "ビルド名: " ++ build.name_en.getD "" ++ "\n" ++
  "概要: " ++ pyTake 500 (build.description_en.getD "") ++ "\n" ++
  "長所短所: " ++ pyTake 500 (build.pros_cons_en.getD "") ++ "\n" ++
  "コア装備: " ++ pyTake 300 (build.core_equipment_en.getD "") ++ "\n\n" ++
  "判定基準:\n" ++
  "1. 概要はそのビルドの説明として意味をなすか？（JSONデータ、HTMLタグ、ナビゲーション文字列ではないか）\n" ++
  "2. 長所短所にはビルドのPros/Consが書かれているか？\n" ++
  "3. コア装備にはPoEの装備・アイテム名が含まれているか？\n\n" ++
  "回答: JSON形式のみ \x7b\"valid\": true/false, \"issues\": [\"問題点\"]\x7d"

/-- `validate_build_semantically` (base.py lines 128-156).  `svc` models
the subprocess call (exception / timeout = `failed`); `parseJsonDict`
models the brace-regex search plus `json.loads` on the stdout (`none` when
no match or the load raises, both of which fall into the `except` /
fall-through path).  Any failure yields the fail-open verdict
`{"valid": True, "issues": []}` (line 156). -/
def validate_build_semantically (svc : String → SvcResult)
    (parseJsonDict : String → Option VerdictDict) (build : Build) : VerdictDict :=
  match svc (semantic_prompt build) with
  | .failed => ⟨some true, some []⟩
  | .ok stdout =>
    match parseJsonDict stdout with
    | some v => v
    | none => ⟨some true, some []⟩

/-! ## `src/scraper/base.py` lines 186-275: `save_builds_to_db` -/

/-- Layer-1 structural reasons (base.py lines 198-201). -/
def layer1_reasons (b : Build) : List String :=
  let desc := b.description_en.getD ""
  if desc = "" ∨ desc.length < 50 then
    ["description_en不足(" ++ toString desc.length ++ "文字)"]
  else []

/-- Layer-2 sanitization (base.py lines 213-219): a garbage `pros_cons_en`
or `core_equipment_en` is reset to `None`; both garbage checks read the
original record (the values were fetched before either reset). -/
def sanitize_build (b : Build) : Build :=
  let pros_cons := b.pros_cons_en.getD ""
  let core_eq := b.core_equipment_en.getD ""
  let b1 := if is_garbage_text pros_cons then { b with pros_cons_en := none } else b
  if is_garbage_text core_eq then { b1 with core_equipment_en := none } else b1

/-- Per-record outcome inside the `save_builds_to_db` loop. -/
inductive RecordOutcome where
  | saved (b : Build)
  | skippedGarbageDescription
  | skippedWithReasons (reasons : List String)
  | skippedSemantic (issues : List String)
deriving DecidableEq, Repr

/-- The per-record body of the `save_builds_to_db` loop
(base.py lines 196-264), with the semantic layer abstracted as
`sem : Build → VerdictDict` (in the source,
`validate_build_semantically`). -/
def process_build (sem : Build → VerdictDict) (b : Build) : RecordOutcome :=
  let desc := b.description_en.getD ""
  let skip1 := layer1_reasons b
  if is_garbage_text desc then RecordOutcome.skippedGarbageDescription
  else
    let b2 := sanitize_build b
    let skip2 := skip1 ++
      (if pyFalsyS b2.pros_cons_en then ["pros_cons_en空"] else []) ++
      (if pyFalsyS b2.core_equipment_en then ["core_equipment_en空"] else [])
    if skip2.isEmpty then
      let validation_result := sem b2
      if !(validation_result.valid.getD true) then
        RecordOutcome.skippedSemantic (validation_result.issues.getD ["不明な問題"])
      else RecordOutcome.saved b2
    else RecordOutcome.skippedWithReasons skip2

/-- Counters and sink state of `save_builds_to_db` (base.py lines 191-194);
`saved_records` models the sequence of `INSERT OR REPLACE` executions. -/
structure SaveResult where
  saved_count : Nat
  skipped_count : Nat
  semantic_invalid_count : Nat
  semantic_issues_summary : List String
  saved_records : List Build
deriving DecidableEq, Repr

/-- One iteration of the `save_builds_to_db` loop updating the counters
(base.py lines 196-264). -/
def save_step (sem : Build → VerdictDict) (acc : SaveResult) (b : Build) : SaveResult :=
  match process_build sem b with
  | .saved b2 =>
    { acc with saved_count := acc.saved_count + 1,
               saved_records := acc.saved_records ++ [b2] }
  | .skippedGarbageDescription =>
    { acc with skipped_count := acc.skipped_count + 1 }
  | .skippedWithReasons _ =>
    { acc with skipped_count := acc.skipped_count + 1 }
  | .skippedSemantic issues =>
    { acc with skipped_count := acc.skipped_count + 1,
               semantic_invalid_count := acc.semantic_invalid_count + 1,
               semantic_issues_summary := acc.semantic_issues_summary ++ issues }

/-- `save_builds_to_db` (base.py lines 186-275) over a batch, modelling a
run that completes without a sink-level failure. -/
def save_builds_to_db (sem : Build → VerdictDict) (builds : List Build) : SaveResult :=
  builds.foldl (save_step sem) ⟨0, 0, 0, [], []⟩

/-! ## JSON serialization (`json.dumps` on lists of strings)

Models CPython `json.dumps` with its defaults (`ensure_ascii=True`,
separator `", "`) for the flat string lists the normalizers serialize. -/

/-- Lowercase hex digit. -/
def hexDigit (n : Nat) : Char :=
  if n < 10 then Char.ofNat (48 + n) else Char.ofNat (87 + n)

/-- Four lowercase hex digits. -/
def hex4 (n : Nat) : String :=
  String.mk [hexDigit ((n / 4096) % 16), hexDigit ((n / 256) % 16),
             hexDigit ((n / 16) % 16), hexDigit (n % 16)]

/-- `json.dumps` escaping of one character (`ensure_ascii=True`). -/
def jsonEscapeChar (c : Char) : String :=
  if c = '\\' then "\\\\"
  else if c = '"' then "\\\""
  else if c = '\n' then "\\n"
  else if c = '\r' then "\\r"
  else if c = '\t' then "\\t"
  else if c = '\x08' then "\\b"
  else if c = '\x0c' then "\\f"
  else if 0x20 ≤ c.toNat ∧ c.toNat ≤ 0x7e then String.singleton c
  else if c.toNat < 0x10000 then "\\u" ++ hex4 c.toNat
  else
    let v := c.toNat - 0x10000
    "\\u" ++ hex4 (0xd800 + v / 0x400) ++ "\\u" ++ hex4 (0xdc00 + v % 0x400)

/-- `json.dumps` of a single string. -/
def jsonDumpStr (s : String) : String :=
  "\"" ++ String.join (s.toList.map jsonEscapeChar) ++ "\""

/-- The `", ".join` step of the list encoder. -/
def joinComma : List String → String
  | [] => ""
  | [x] => x
  | x :: y :: rest => x ++ ", " ++ joinComma (y :: rest)

/-- `json.dumps` of a list of strings (item separator `", "`). -/
def jsonDumpList (l : List String) : String :=
  "[" ++ joinComma (l.map jsonDumpStr) ++ "]"

/-! ## The patch-version prefix regex

`re.match(r"(\d+\.\d+)", s)` (mobalytics.py line 30, maxroll.py line 31):
anchored at the start, a maximal digit run, a dot, a maximal digit run.
A shorter first run would still be followed by a digit, never by the dot,
so the greedy run needs no backtracking and the model below is exact. -/

/-- `m.group(1)` of `re.match(r"(\d+\.\d+)", s)`, `none` when no match. -/
def majorMinorOf (s : String) : Option String :=
  let cs := s.toList
  let d1 := cs.takeWhile Char.isDigit
  if d1.isEmpty then none
  else
    match cs.drop d1.length with
    | '.' :: rest =>
      let d2 := rest.takeWhile Char.isDigit
      if d2.isEmpty then none
      else some (String.mk (d1 ++ '.' :: d2))
    | _ => none

/-- `patch_short` computation shared by both normalizers
(mobalytics.py lines 28-32, maxroll.py lines 29-33): initialised to `""`,
overwritten by the regex group only when `patch` is truthy and matches. -/
def patchShortOf (patch : String) : String :=
  if patch = "" then "" else (majorMinorOf patch).getD ""

/-! ## The common normalized record shape -/

/-- The dict both `_normalize_build` functions and
`extract_build_from_transcript` return (keys of the `INSERT` statement,
base.py lines 242-263, minus the two constants added by the insert). -/
structure NormalizedBuild where
  source : String
  source_id : String
  source_url : String
  name_en : String
  class_en : Option String
  ascendancy_en : Option String
  skills_en : Option String
  description_en : Option String
  patch : String
  build_types : Option String
  author : Option String
  favorites : Int
  verified : Int
  hc : Int
  ssf : Int
  playstyle : Option String
  activities : Option String
  cost_tier : Option String
  damage_types : Option String
  combat_style : String
  specialty : String
  pros_cons_en : Option String
  pros_cons_ja : Option String
  core_equipment_en : Option String
  core_equipment_ja : Option String
deriving DecidableEq, Repr

/-! ## `src/scraper/mobalytics.py` lines 16-100: `_normalize_build` -/

namespace Mobalytics

/-- `ALLOWED_PATCHES` (mobalytics.py line 16). -/
def ALLOWED_PATCHES : List String := ["3.27", "3.26"]

/-- One element of `raw["skillGems"]` / `raw["gems"]`: a dict (whose
`name` key may be absent, defaulting to `""`) or a plain string
(mobalytics.py lines 47-51). -/
inductive GemVal where
  | gdict (name : Option String)
  | gstr (s : String)
deriving DecidableEq, Repr

/-- One element of `raw["tags"]` / `raw["buildTags"]`: a dict carrying
`name` and/or `id`, or any other value rendered via `str(tag)`
(mobalytics.py lines 57-61). -/
inductive TagVal where
  | tdict (name : Option String) (id : Option String)
  | tother (s : String)
deriving DecidableEq, Repr

/-- The keys of the raw GraphQL / DOM build object that
`_normalize_build` reads (mobalytics.py lines 22-96).  A missing key is
`none`.  `class` is a Lean keyword, so that key is spelled `class_key`. -/
structure MobaRaw where
  name : Option String
  title : Option String
  patchVersion : Option String
  patch : Option String
  className : Option String
  class_key : Option String
  ascendancyName : Option String
  ascendancy : Option String
  mainSkillName : Option String
  primarySkillName : Option String
  mainSkill : Option String
  skillGems : Option (List GemVal)
  gems : Option (List GemVal)
  tags : Option (List TagVal)
  buildTags : Option (List TagVal)
  slug : Option String
  id : Option String
  description : Option String
  summary : Option String
  author : Option (Option String)
  authorName : Option String
  likesCount : Option Int
  favorites : Option Int
  isHardcore : Option Bool
  hardcore : Option Bool
  isSsf : Option Bool
  ssf : Option Bool
deriving DecidableEq, Repr

/-- The `skills` list (mobalytics.py lines 40-51): the first truthy of the
three main-skill keys, then every gem name. -/
def rawSkills (raw : MobaRaw) : List String :=
  let firstSkill :=
    match raw.mainSkillName with
    | some s => if s = "" then
        (match raw.primarySkillName with
         | some t => if t = "" then
             (match raw.mainSkill with
              | some u => if u = "" then [] else [u]
              | none => [])
           else [t]
         | none =>
           match raw.mainSkill with
           | some u => if u = "" then [] else [u]
           | none => [])
      else [s]
    | none =>
      match raw.primarySkillName with
      | some t => if t = "" then
          (match raw.mainSkill with
           | some u => if u = "" then [] else [u]
           | none => [])
        else [t]
      | none =>
        match raw.mainSkill with
        | some u => if u = "" then [] else [u]
        | none => []
  let skill_gems := pyOrL raw.skillGems (pyOrL raw.gems [])
  firstSkill ++ skill_gems.map (fun g =>
    match g with
    | .gdict name => name.getD ""
    | .gstr s => s)

/-- The `build_types` list (mobalytics.py lines 54-61). -/
def rawBuildTypes (raw : MobaRaw) : List String :=
  (pyOrL raw.tags (pyOrL raw.buildTags [])).map (fun t =>
    match t with
    | .tdict name id => name.getD (id.getD "")
    | .tother s => s)

/-- `_normalize_build` (mobalytics.py lines 19-100).  The enclosing
`try/except` only guards dynamic typing errors, which the typed embedding
excludes. -/
def _normalize_build (raw : MobaRaw) (tab : String) : Option NormalizedBuild :=
  let name := pyOrS raw.name (pyOrS raw.title "")
  if name = "" then none
  else
    let patch := pyOrS raw.patchVersion (pyOrS raw.patch "")
    let patch_short := patchShortOf patch
    if patch_short ∉ ALLOWED_PATCHES then none
    else
      let class_name := pyOrS raw.className (pyOrS raw.class_key "")
      let ascendancy := pyOrS raw.ascendancyName (pyOrS raw.ascendancy "")
      let skills := rawSkills raw
      let build_types := rawBuildTypes raw
      let slug := pyOrS raw.slug (pyOrS raw.id (replaceChar ' ' '-' (toLowerPy name)))
      let source_id := pyOrS raw.id slug
      let description := pyOrS raw.description (pyOrS raw.summary "")
      let combat_style := detect_combat_style name skills description
      let specialty := detect_specialty build_types description
      some
        { source := "mobalytics"
          source_id := source_id
          source_url := "https://mobalytics.gg/poe/builds/" ++ slug
          name_en := name
          class_en := some class_name
          ascendancy_en := some ascendancy
          skills_en := if skills.isEmpty then none else some (jsonDumpList skills)
          description_en := some description
          patch := patch
          build_types := if build_types.isEmpty then none else some (jsonDumpList build_types)
          author := match raw.author with
                    | some name_field => name_field
                    | none => raw.authorName
          favorites := pyOrI raw.likesCount (pyOrI raw.favorites 0)
          verified := if tab = "verified" then 1 else 0
          hc := if pyTruthyB raw.isHardcore || pyTruthyB raw.hardcore then 1 else 0
          ssf := if pyTruthyB raw.isSsf || pyTruthyB raw.ssf then 1 else 0
          playstyle := none
          activities := none
          cost_tier := none
          damage_types := none
          combat_style := combat_style
          specialty := jsonDumpList specialty
          pros_cons_en := none
          pros_cons_ja := none
          core_equipment_en := none
          core_equipment_ja := none }

end Mobalytics

/-! ## `src/scraper/maxroll.py` lines 15-121: `_normalize_build` -/

namespace Maxroll

/-- `ALLOWED_PATCHES` (maxroll.py line 15). -/
def ALLOWED_PATCHES : List String := ["3.27", "3.26"]

/-- `DEFAULT_PATCH` (maxroll.py line 17). -/
def DEFAULT_PATCH : String := "3.27"

/-- A raw field that may hold either a pre-serialized string or a list
(the `isinstance(x, list)` branches of maxroll.py lines 38-70). -/
inductive PyStrOrList where
  | pstr (s : String)
  | plist (l : List String)
deriving DecidableEq, Repr

/-- Python `raw.get(k) or []` on a string-or-list field: `None`, `""` and
`[]` are all falsy and collapse to `[]`. -/
def pyOrSL (a : Option PyStrOrList) : PyStrOrList :=
  match a with
  | none => .plist []
  | some (.pstr s) => if s = "" then .plist [] else .pstr s
  | some (.plist l) => if l.isEmpty then .plist [] else .plist l

/-- `json.dumps(x) if x else None` when `x` is a list,
string pass-through otherwise (maxroll.py lines 38-70, after the
`or []` default). -/
def serializeField (x : PyStrOrList) : Option String :=
  match x with
  | .plist l => if l.isEmpty then none else some (jsonDumpList l)
  | .pstr s => some s

/-- The keys of the raw detail dict that `_normalize_build` reads
(maxroll.py lines 23-117). -/
structure MaxrollRaw where
  name_en : Option String
  patch : Option String
  skills_en : Option PyStrOrList
  build_types : Option PyStrOrList
  playstyle : Option PyStrOrList
  activities : Option PyStrOrList
  damage_types : Option PyStrOrList
  description_en : Option String
  combat_style : Option String
  specialty : Option PyStrOrList
  source_id : Option String
  source_url : Option String
  class_en : Option String
  ascendancy_en : Option String
  author : Option String
  favorites : Option Int
  verified : Option Int
  hc : Option Int
  ssf : Option Int
  cost_tier : Option String
  pros_cons_en : Option String
  core_equipment_en : Option String
deriving DecidableEq, Repr

/-- The tag pool fed to `detect_specialty` (maxroll.py lines 84-89): the
(`or []`-defaulted) build-types, playstyle and activities values, lists
extended element-wise and strings appended whole. -/
def allTags (bts ps acts : PyStrOrList) : List String :=
  [bts, ps, acts].foldl (fun acc t =>
    match t with
    | .plist l => acc ++ l
    | .pstr s => acc ++ [s]) []

/-- `_normalize_build` (maxroll.py lines 20-121).  `jsonLoadsList` models
`json.loads` on a pre-serialized skills string (maxroll.py lines 76-80,
`none` = parse exception, folded to `[]`).  The enclosing `try/except`
only guards dynamic typing errors, which the typed embedding excludes. -/
def _normalize_build (jsonLoadsList : String → Option (List String))
    (raw : MaxrollRaw) : Option NormalizedBuild :=
  let name := pyOrS raw.name_en ""
  if name = "" then none
  else
    let patch := pyOrS raw.patch DEFAULT_PATCH
    let patch_short := patchShortOf patch
    if patch_short ∉ ALLOWED_PATCHES then none
    else
      let skills := pyOrSL raw.skills_en
      let build_types := pyOrSL raw.build_types
      let playstyle := pyOrSL raw.playstyle
      let activities := pyOrSL raw.activities
      let damage_types := pyOrSL raw.damage_types
      let description := pyOrS raw.description_en ""
      let skills_list : List String :=
        match pyOrSL raw.skills_en with
        | .plist l => l
        | .pstr s => (jsonLoadsList s).getD []
      let combat_style := pyOrS raw.combat_style
        (detect_combat_style name skills_list description)
      let specialty : PyStrOrList :=
        match raw.specialty with
        | some (.pstr s) => if s = "" then .plist (detect_specialty (allTags build_types playstyle activities) description) else .pstr s
        | some (.plist l) => if l.isEmpty then .plist (detect_specialty (allTags build_types playstyle activities) description) else .plist l
        | none => .plist (detect_specialty (allTags build_types playstyle activities) description)
      some
        { source := "maxroll"
          source_id := pyOrS raw.source_id ""
          source_url := pyOrS raw.source_url ""
          name_en := name
          class_en := some (pyOrS raw.class_en "")
          ascendancy_en := some (pyOrS raw.ascendancy_en "")
          skills_en := serializeField skills
          description_en := some description
          patch := patch
          build_types := serializeField build_types
          author := raw.author
          favorites := pyOrI raw.favorites 0
          verified := pyOrI raw.verified 0
          hc := pyOrI raw.hc 0
          ssf := pyOrI raw.ssf 0
          playstyle := serializeField playstyle
          activities := serializeField activities
          cost_tier := raw.cost_tier
          damage_types := serializeField damage_types
          combat_style := combat_style
          specialty := (match specialty with
                        | .plist l => jsonDumpList l
                        | .pstr s => s)
          pros_cons_en := raw.pros_cons_en
          pros_cons_ja := none
          core_equipment_en := raw.core_equipment_en
          core_equipment_ja := none }

end Maxroll

/-! ## `src/scraper/youtube.py` lines 226-275: `extract_build_from_transcript` -/

namespace Youtube

/-- The video dict fields read by `extract_build_from_transcript`
(youtube.py lines 236-268). -/
structure Video where
  title : String
  video_id : String
  video_url : String
  channel_name : String
  view_count : Int
deriving DecidableEq, Repr

/-- The fixed instruction prefix of `enhanced_prompt`
(youtube.py lines 229-233); the transcript is appended after it. -/
def transcriptPromptPrefix : String :=
  "このテキストはYouTube動画の書き起こしです。\n" ++
  "フィラー（uh, um等）は無視し、ビルド情報のみ抽出してください。\n" ++
  "複数ビルド紹介時はメインビルドを抽出してください。\n\n"

/-- `extract_build_from_transcript` (youtube.py lines 226-275).  `gen` and
`parseSections` parameterize `extract_build_info_via_llm` exactly as
above. -/
def extract_build_from_transcript (gen : String → Option String)
    (parseSections : String → DraftFields)
    (video : Video) (transcript : String) : Option NormalizedBuild :=
  let enhanced_prompt := transcriptPromptPrefix ++ transcript
  let result := extract_build_info_via_llm gen parseSections enhanced_prompt video.title
  match result.description_en with
  | none => none
  | some desc =>
    if desc = "" then none
    else
      some
        { source := "youtube"
          source_id := video.video_id
          source_url := video.video_url
          name_en := video.title
          class_en := some (pyOrS result.class_en "Unknown")
          ascendancy_en := result.ascendancy_en
          skills_en := some (jsonDumpList [])
          description_en := result.description_en
          patch := "3.27"
          build_types := some (jsonDumpList [])
          author := some video.channel_name
          favorites := video.view_count
          verified := 0
          hc := 0
          ssf := 0
          playstyle := none
          activities := none
          cost_tier := none
          damage_types := none
          combat_style := detect_combat_style video.title [] (result.description_en.getD "")
          specialty := jsonDumpList (detect_specialty [] (result.description_en.getD ""))
          pros_cons_en := result.pros_cons_en
          pros_cons_ja := none
          core_equipment_en := result.core_equipment_en
          core_equipment_ja := none }

end Youtube

/-! ## Spec-side helper definitions used in theorem statements -/

/-- `max(scores.values())` of `detect_combat_style` (base.py line 72). -/
def maxScore4 (sm sr sc ss : Nat) : Nat :=
  max (max sm sr) (max sc ss)

/-- How many of the four styles attain the maximum score
(`len(top)` of base.py line 75). -/
def tieCount4 (sm sr sc ss : Nat) : Nat :=
  (if sm = maxScore4 sm sr sc ss then 1 else 0) +
  (if sr = maxScore4 sm sr sc ss then 1 else 0) +
  (if sc = maxScore4 sm sr sc ss then 1 else 0) +
  (if ss = maxScore4 sm sr sc ss then 1 else 0)

/-- The melee score of `detect_combat_style` on given inputs. -/
def melee_score (n : String) (sk : List String) (d : String) : Nat :=
  scoreKeywords MELEE_KEYWORDS (combatText n sk d)

/-- The ranged score of `detect_combat_style` on given inputs. -/
def ranged_score (n : String) (sk : List String) (d : String) : Nat :=
  scoreKeywords RANGED_KEYWORDS (combatText n sk d)

/-- The caster score of `detect_combat_style` on given inputs. -/
def caster_score (n : String) (sk : List String) (d : String) : Nat :=
  scoreKeywords CASTER_KEYWORDS (combatText n sk d)

/-- The summoner score of `detect_combat_style` on given inputs. -/
def summoner_score (n : String) (sk : List String) (d : String) : Nat :=
  scoreKeywords SUMMONER_KEYWORDS (combatText n sk d)

/-- Whether a per-record outcome is a persistence (`INSERT` executed). -/
def RecordOutcome.isSaved : RecordOutcome → Bool
  | .saved _ => true
  | _ => false

/-- Whether a raw string-or-list field is absent or holds a list (the
shape the in-repository maxroll caller `_scrape_build_detail` supplies). -/
def isListShapedB : Option Maxroll.PyStrOrList → Bool
  | some (.pstr _) => false
  | _ => true

/-! ## Concrete fixtures for witnesses and counterexamples -/

/-- A semantic oracle that always passes (the fail-open verdict). -/
def semPass : Build → VerdictDict := fun _ => ⟨some true, some []⟩

/-- A semantic oracle that always reports an explicit invalid verdict. -/
def semReject : Build → VerdictDict := fun _ => ⟨some false, some ["概要が不適切"]⟩

/-- Claim C1 fixture: clean long description, garbage-token `pros_cons`,
clean non-empty `core_equipment`. -/
def build_c1 : Build :=
  { source_id := some "cx1"
    name_en := some "Cyclone Slayer"
    description_en := some "This build spins through maps with Cyclone and scales melee damage comfortably."
    pros_cons_en := some "Pros: fast clear __typename Cons: none listed"
    core_equipment_en := some "Headhunter, Starforge" }

/-- Claim C2 fixture: a record with a 10-character description. -/
def build_c2 : Build :=
  { source_id := some "cx2"
    name_en := some "Short One"
    description_en := some "ten chars!"
    pros_cons_en := some "Pros: quick to level. Cons: squishy later on."
    core_equipment_en := some "Tabula Rasa" }

/-- Claim C8 fixture: a record that passes the structural and pattern
layers, so only the semantic layer can decide its fate. -/
def build_c8 : Build :=
  { source_id := some "cx8"
    name_en := some "Righteous Fire Juggernaut"
    description_en := some "A tanky Righteous Fire build that burns everything nearby while facetanking most content."
    pros_cons_en := some "Pros: extremely tanky. Cons: damage ceiling is low."
    core_equipment_en := some "Rise of the Phoenix, Legacy of Fury" }

/-- An all-absent mobalytics raw object, to be overridden per fixture. -/
def mobaRawBase : Mobalytics.MobaRaw :=
  { name := none, title := none, patchVersion := none, patch := none
    className := none, class_key := none, ascendancyName := none
    ascendancy := none, mainSkillName := none, primarySkillName := none
    mainSkill := none, skillGems := none, gems := none, tags := none
    buildTags := none, slug := none, id := none, description := none
    summary := none, author := none, authorName := none, likesCount := none
    favorites := none, isHardcore := none, hardcore := none, isSsf := none
    ssf := none }

/-- An all-absent maxroll raw object, to be overridden per fixture. -/
def maxrollRawBase : Maxroll.MaxrollRaw :=
  { name_en := none, patch := none, skills_en := none, build_types := none
    playstyle := none, activities := none, damage_types := none
    description_en := none, combat_style := none, specialty := none
    source_id := none, source_url := none, class_en := none
    ascendancy_en := none, author := none, favorites := none
    verified := none, hc := none, ssf := none, cost_tier := none
    pros_cons_en := none, core_equipment_en := none }

/-- C7 counterexample fixture: a maxroll raw record with a non-empty name
and no patch value at all. -/
def maxrollRawNoPatch : Maxroll.MaxrollRaw :=
  { maxrollRawBase with
    name_en := some "Lightning Arrow Deadeye"
    description_en := some "A fast mapping bow build." }

/-- C7 witness fixture: mobalytics raw record with patch 3.25.1. -/
def mobaRawOldPatch : Mobalytics.MobaRaw :=
  { mobaRawBase with
    name := some "Old League Build"
    patchVersion := some "3.25.1" }

/-- C7 witness fixture: mobalytics raw record with patch 3.27.2. -/
def mobaRawNewPatch : Mobalytics.MobaRaw :=
  { mobaRawBase with
    name := some "Fresh League Build"
    patchVersion := some "3.27.2"
    description := some "A spark caster that clears fast." }

/-- C7 witness fixture: maxroll raw record with patch 3.25.1. -/
def maxrollRawOldPatch : Maxroll.MaxrollRaw :=
  { maxrollRawBase with
    name_en := some "Stale Build"
    patch := some "3.25.1" }

/-- C9 witness fixture: mobalytics raw record with one skill and no tags. -/
def mobaRawWithSkill : Mobalytics.MobaRaw :=
  { mobaRawBase with
    name := some "Boneshatter Jugg"
    patchVersion := some "3.26"
    mainSkillName := some "Boneshatter" }

/-- C9 witness fixture: maxroll raw record with list-shaped raw fields. -/
def maxrollRawListFields : Maxroll.MaxrollRaw :=
  { maxrollRawBase with
    name_en := some "Tornado Shot Deadeye"
    patch := some "3.27"
    skills_en := some (.plist ["Tornado Shot"])
    build_types := some (.plist []) }

/-- Fixture extraction oracle: the backing service replies with a fixed
non-empty output. -/
def genFixed : String → Option String := fun _ => some "SECTION OUTPUT"

/-- Fixture section parser: extraction found only a long description. -/
def parseFixed : String → DraftFields := fun _ =>
  ⟨some "A Cyclone slam hybrid guide description that is certainly long enough to pass every length check.",
   none, none, none, none⟩

/-- Fixture video metadata for the transcript extractor. -/
def videoFixed : Youtube.Video :=
  { title := "Best Cyclone Build for 3.27"
    video_id := "vid12345"
    video_url := "https://youtube.example/vid12345"
    channel_name := "PoEChannel"
    view_count := 1000 }

/-! ## Theorems -/

/-- Helper: the maximum of the four scores is attained by one of them. -/
theorem maxScore4_attained (sm sr sc ss : Nat) :
    sm = maxScore4 sm sr sc ss ∨ sr = maxScore4 sm sr sc ss ∨
    sc = maxScore4 sm sr sc ss ∨ ss = maxScore4 sm sr sc ss := by
  unfold maxScore4
  rcases max_choice (max sm sr) (max sc ss) with h | h
  · rcases max_choice sm sr with h2 | h2
    · exact Or.inl (by rw [h, h2])
    · exact Or.inr (Or.inl (by rw [h, h2]))
  · rcases max_choice sc ss with h2 | h2
    · exact Or.inr (Or.inr (Or.inl (by rw [h, h2])))
    · exact Or.inr (Or.inr (Or.inr (by rw [h, h2])))

/-- Helper: full case analysis of the combat-style decision step. -/
theorem styleDecision_cases (sm sr sc ss : Nat) :
    (styleDecision sm sr sc ss = "melee" ∨ styleDecision sm sr sc ss = "ranged" ∨
     styleDecision sm sr sc ss = "caster" ∨ styleDecision sm sr sc ss = "summoner" ∨
     styleDecision sm sr sc ss = "hybrid") ∧
    ((maxScore4 sm sr sc ss = 0 ∨ 2 ≤ tieCount4 sm sr sc ss) →
      styleDecision sm sr sc ss = "hybrid") ∧
    (tieCount4 sm sr sc ss = 1 →
      ((sm = maxScore4 sm sr sc ss → styleDecision sm sr sc ss = "melee") ∧
       (sr = maxScore4 sm sr sc ss → styleDecision sm sr sc ss = "ranged") ∧
       (sc = maxScore4 sm sr sc ss → styleDecision sm sr sc ss = "caster") ∧
       (ss = maxScore4 sm sr sc ss → styleDecision sm sr sc ss = "summoner"))) := by
  have hM := maxScore4_attained sm sr sc ss
  unfold styleDecision tieCount4
  unfold maxScore4 at *
  generalize hG : max (max sm sr) (max sc ss) = M
  rw [hG] at hM
  by_cases hz : M = 0
  · rw [hz] at hG
    rw [Nat.max_eq_zero_iff, Nat.max_eq_zero_iff, Nat.max_eq_zero_iff] at hG
    obtain ⟨⟨e1, e2⟩, e3, e4⟩ := hG
    simp [e1, e2, e3, e4, hz]
  · by_cases h1 : sm = M <;>
    by_cases h2 : sr = M <;>
    by_cases h3 : sc = M <;>
    by_cases h4 : ss = M <;>
      simp_all

/-- **C3**: `detect_combat_style` scores the four fixed keyword sets on the
lowercased concatenation of name, skills and description; it returns
`hybrid` when the maximum score is zero or at least two styles tie for the
maximum, returns the unique top style's label otherwise, and its result is
always one of melee / ranged / caster / summoner / hybrid. -/
theorem detect_combat_style_spec (name : String) (skills : List String) (description : String) :
    (detect_combat_style name skills description = "melee" ∨
     detect_combat_style name skills description = "ranged" ∨
     detect_combat_style name skills description = "caster" ∨
     detect_combat_style name skills description = "summoner" ∨
     detect_combat_style name skills description = "hybrid") ∧
    ((maxScore4 (melee_score name skills description) (ranged_score name skills description)
        (caster_score name skills description) (summoner_score name skills description) = 0 ∨
      2 ≤ tieCount4 (melee_score name skills description) (ranged_score name skills description)
        (caster_score name skills description) (summoner_score name skills description)) →
      detect_combat_style name skills description = "hybrid") ∧
    (tieCount4 (melee_score name skills description) (ranged_score name skills description)
        (caster_score name skills description) (summoner_score name skills description) = 1 →
      ((melee_score name skills description =
          maxScore4 (melee_score name skills description) (ranged_score name skills description)
            (caster_score name skills description) (summoner_score name skills description) →
        detect_combat_style name skills description = "melee") ∧
       (ranged_score name skills description =
          maxScore4 (melee_score name skills description) (ranged_score name skills description)
            (caster_score name skills description) (summoner_score name skills description) →
        detect_combat_style name skills description = "ranged") ∧
       (caster_score name skills description =
          maxScore4 (melee_score name skills description) (ranged_score name skills description)
            (caster_score name skills description) (summoner_score name skills description) →
        detect_combat_style name skills description = "caster") ∧
       (summoner_score name skills description =
          maxScore4 (melee_score name skills description) (ranged_score name skills description)
            (caster_score name skills description) (summoner_score name skills description) →
        detect_combat_style name skills description = "summoner"))) := by
  have h := styleDecision_cases (melee_score name skills description)
    (ranged_score name skills description) (caster_score name skills description)
    (summoner_score name skills description)
  exact h

/-- Witness for C3: a name containing exactly one melee keyword
classifies as melee; no signal classifies as hybrid. -/
theorem detect_combat_style_spec_witness :
    detect_combat_style "Boneshatter Jugg" [] "" = "melee" ∧
    detect_combat_style "Mystery" [] "" = "hybrid" := by
  constructor
  · exact ((detect_combat_style_spec "Boneshatter Jugg" [] "").2.2 (by decide)).1 (by decide)
  · exact (detect_combat_style_spec "Mystery" [] "").2.1 (by decide)

/-- **C4**: `detect_specialty` never returns an empty list: it returns
exactly the labels of the matched keyword groups when at least one of the
six groups matches, and exactly `["all_rounder"]` when none matches. -/
theorem detect_specialty_spec (build_types : List String) (description : String) :
    detect_specialty build_types description ≠ [] ∧
    (matchedSpecialties build_types description = [] →
      detect_specialty build_types description = ["all_rounder"]) ∧
    (matchedSpecialties build_types description ≠ [] →
      detect_specialty build_types description = matchedSpecialties build_types description) := by
  unfold detect_specialty matchedSpecialties SPECIALTY_GROUPS
  by_cases g1 : anyKeyword ["starter", "league start", "league-start"]
      (specialtyText build_types description) = true <;>
  by_cases g2 : anyKeyword ["boss", "bossing", "boss killer"]
      (specialtyText build_types description) = true <;>
  by_cases g3 : anyKeyword ["map", "mapping", "clear", "farmer", "farming"]
      (specialtyText build_types description) = true <;>
  by_cases g4 : anyKeyword ["all-around", "all around", "all rounder", "versatile"]
      (specialtyText build_types description) = true <;>
  by_cases g5 : anyKeyword ["speed", "fast", "zoom"]
      (specialtyText build_types description) = true <;>
  by_cases g6 : anyKeyword ["tank", "tanky", "defensive", "survive"]
      (specialtyText build_types description) = true <;>
    simp_all

/-- Witness for C4: a bossing tag yields exactly the boss-killer label;
no signal yields the default. -/
theorem detect_specialty_spec_witness :
    detect_specialty ["bossing"] "" = ["boss_killer"] ∧
    detect_specialty [] "nothing relevant here" = ["all_rounder"] := by
  constructor
  · exact (detect_specialty_spec ["bossing"] "").2.2 (by decide) |>.trans (by decide)
  · exact (detect_specialty_spec [] "nothing relevant here").2.1 (by decide)

/-- **C5**: `is_garbage_text` returns true exactly for the empty text, any
text containing a garbage signature token case-insensitively, and any text
whose brace / quote-colon count exceeds 5% of its length; it returns false
for every other text. -/
theorem is_garbage_text_spec (t : String) :
    is_garbage_text t = true ↔
      (t = "" ∨
       (∃ p ∈ GARBAGE_PATTERNS, strContains (toLowerPy t) (toLowerPy p) = true) ∨
       20 * jsonCharsCount t > t.length) := by
  unfold is_garbage_text
  by_cases he : t = ""
  · subst he
    simp
  · rw [if_neg he]
    have hlen : 0 < t.length := by
      have : t.length ≠ 0 := fun h0 => he (by
        have hd : t.data.length = 0 := h0
        cases t with
        | mk data => cases data with
          | nil => rfl
          | cons c cs => simp at hd)
      omega
    by_cases ha : GARBAGE_PATTERNS.any (fun pattern => strContains (toLowerPy t) (toLowerPy pattern)) = true
    · rw [if_pos ha]
      simp only [List.any_eq_true] at ha
      simp only [true_iff]
      exact Or.inr (Or.inl ha)
    · rw [if_neg (by simpa using ha)]
      by_cases hr : 20 * jsonCharsCount t > t.length
      · rw [if_pos ⟨hlen, hr⟩]
        simp only [true_iff]
        exact Or.inr (Or.inr hr)
      · rw [if_neg (by intro hc; exact hr hc.2)]
        simp only [Bool.false_eq_true, false_iff]
        push_neg
        rw [List.any_eq_true] at ha
        push_neg at ha
        refine ⟨he, ?_, not_lt.mp hr⟩
        intro p hp
        simpa using ha p hp

/-- Witness for C5: a token-bearing text and the empty text are garbage. -/
theorem is_garbage_text_spec_witness :
    is_garbage_text "" = true ∧
    is_garbage_text "prefix __typename suffix" = true ∧
    is_garbage_text "a perfectly ordinary build description" = false := by
  refine ⟨(is_garbage_text_spec "").mpr (Or.inl rfl), ?_, ?_⟩
  · exact (is_garbage_text_spec "prefix __typename suffix").mpr
      (Or.inr (Or.inl ⟨"__typename", by decide, by decide⟩))
  · have h := (is_garbage_text_spec "a perfectly ordinary build description").not
    simp only [Bool.not_eq_true] at h
    exact h.mpr (by decide)

/-- Helper: `dropWhile` never lengthens a list. -/
theorem dropWhile_length_le {α : Type} (p : α → Bool) (l : List α) :
    (l.dropWhile p).length ≤ l.length := by
  induction l with
  | nil => simp
  | cons a l ih =>
    by_cases h : p a = true <;> simp [List.dropWhile, h] <;> omega

/-- Helper: stripping never lengthens a string. -/
theorem pyStrip_length_le (l : List Char) : (pyStrip l).length ≤ l.length := by
  unfold pyStrip
  have h1 := dropWhile_length_le Char.isWhitespace l
  have h2 := dropWhile_length_le Char.isWhitespace
    ((l.dropWhile Char.isWhitespace).reverse)
  simp only [List.length_reverse] at *
  omega

/-- **C6**: on input shorter than the 50-character minimum,
`extract_build_info_via_llm` returns the all-`None` draft, for every
backing service `gen` and every section parser: in particular the result
does not depend on `gen`, i.e. the backing service is never consulted. -/
theorem extract_short_input_empty_draft (gen : String → Option String)
    (parseSections : String → DraftFields) (page_text build_name : String)
    (h : page_text.length < 50) :
    extract_build_info_via_llm gen parseSections page_text build_name =
      ⟨none, none, none, none, none⟩ := by
  have hs : (pyStrip page_text.toList).length < 50 := by
    have hle := pyStrip_length_le page_text.toList
    have hlen : page_text.toList.length = page_text.length := rfl
    omega
  unfold extract_build_info_via_llm
  rw [if_pos (Or.inr hs)]
  rfl

/-- Witness for C6 at a concrete 10-character input. -/
theorem extract_short_input_empty_draft_witness :
    ("ten chars!" : String).length < 50 ∧
    extract_build_info_via_llm genFixed parseFixed "ten chars!" "Some Build" =
      ⟨none, none, none, none, none⟩ :=
  ⟨by decide,
   extract_short_input_empty_draft genFixed parseFixed "ten chars!" "Some Build" (by decide)⟩

/-- Helper: each loop iteration adds exactly one to saved + skipped. -/
theorem save_fold_sum (sem : Build → VerdictDict) :
    ∀ (builds : List Build) (acc : SaveResult),
      ((builds.foldl (save_step sem) acc).saved_count +
        (builds.foldl (save_step sem) acc).skipped_count)
        = acc.saved_count + acc.skipped_count + builds.length := by
  intro builds
  induction builds with
  | nil => intro acc; simp
  | cons b bs ih =>
    intro acc
    simp only [List.foldl_cons, List.length_cons]
    rw [ih]
    cases hpb : process_build sem b <;> simp [save_step, hpb] <;> omega

/-- Helper: the loop preserves `semantic_invalid_count ≤ skipped_count`. -/
theorem save_fold_sem_le (sem : Build → VerdictDict) :
    ∀ (builds : List Build) (acc : SaveResult),
      acc.semantic_invalid_count ≤ acc.skipped_count →
      (builds.foldl (save_step sem) acc).semantic_invalid_count ≤
        (builds.foldl (save_step sem) acc).skipped_count := by
  intro builds
  induction builds with
  | nil => intro acc h; simpa using h
  | cons b bs ih =>
    intro acc h
    simp only [List.foldl_cons]
    apply ih
    cases hpb : process_build sem b <;> simp [save_step, hpb] <;> omega

/-- **C10**: for every batch and every semantic oracle, each record
increments exactly one of the two counters, so saved + skipped equals the
batch size, and the semantic-invalid count never exceeds the skipped
count. -/
theorem save_builds_counts_partition (sem : Build → VerdictDict) (builds : List Build) :
    (save_builds_to_db sem builds).saved_count +
      (save_builds_to_db sem builds).skipped_count = builds.length ∧
    (save_builds_to_db sem builds).semantic_invalid_count ≤
      (save_builds_to_db sem builds).skipped_count := by
  unfold save_builds_to_db
  constructor
  · simpa using save_fold_sum sem builds ⟨0, 0, 0, [], []⟩
  · exact save_fold_sem_le sem builds ⟨0, 0, 0, [], []⟩ (Nat.le_refl 0)

/-- Helper: `None` is falsy. -/
theorem pyFalsyS_none : pyFalsyS none = true := rfl

/-- **C1 counterexample**: a record with a clean 79-character description,
a garbage-token `pros_cons_en` and a clean non-empty `core_equipment_en`
is NOT persisted with `pros_cons_en = None` as the claim states: the
pipeline nulls the field and then rejects the record for the empty
required field. -/
theorem sanitize_reject_counterexample :
    is_garbage_text "This build spins through maps with Cyclone and scales melee damage comfortably." = false ∧
    50 ≤ ("This build spins through maps with Cyclone and scales melee damage comfortably." : String).length ∧
    is_garbage_text "Pros: fast clear __typename Cons: none listed" = true ∧
    is_garbage_text "Headhunter, Starforge" = false ∧
    process_build semPass build_c1 = RecordOutcome.skippedWithReasons ["pros_cons_en空"] ∧
    (process_build semPass build_c1).isSaved = false :=
  ⟨by decide, by decide, by decide, by decide, by decide, by decide⟩

/-- **C1** (amended): for every record whose description is clean and at
least 50 characters, whose `pros_cons_en` is flagged by the garbage
detector, and whose `core_equipment_en` is clean and non-empty, the
pipeline nulls `pros_cons_en` and then REJECTS the record with the single
reason `pros_cons_en空`: rejection happens whenever either sanitized field
is empty, not only when both are. -/
theorem sanitize_then_reject_missing_field (sem : Build → VerdictDict) (b : Build)
    (hlen : 50 ≤ (b.description_en.getD "").length)
    (hdesc : is_garbage_text (b.description_en.getD "") = false)
    (hpros : is_garbage_text (b.pros_cons_en.getD "") = true)
    (hcore : is_garbage_text (b.core_equipment_en.getD "") = false)
    (hcoreNE : pyFalsyS b.core_equipment_en = false) :
    process_build sem b = RecordOutcome.skippedWithReasons ["pros_cons_en空"] := by
  have hdne : b.description_en.getD "" ≠ "" := by
    intro h0
    rw [h0] at hlen
    simp at hlen
  have hl1 : layer1_reasons b = [] := by
    unfold layer1_reasons
    rw [if_neg]
    push_neg
    exact ⟨hdne, hlen⟩
  have hsan : sanitize_build b = { b with pros_cons_en := none } := by
    unfold sanitize_build
    simp [hpros, hcore]
  unfold process_build
  simp [hdesc, hl1, hsan, pyFalsyS_none, hcoreNE]

/-- Witness for the amended C1 at the concrete fixture. -/
theorem sanitize_then_reject_missing_field_witness :
    process_build semReject build_c1 = RecordOutcome.skippedWithReasons ["pros_cons_en空"] :=
  sanitize_then_reject_missing_field semReject build_c1
    (by decide) (by decide) (by decide) (by decide) (by decide)

/-- **C2**: a record whose description is shorter than 50 characters never
reaches the semantic layer — the outcome is the same for every semantic
oracle (so `validate_build_semantically` is never consulted) — and the
record is never persisted. -/
theorem short_description_skipped_before_semantic (sem sem2 : Build → VerdictDict)
    (b : Build) (h : (b.description_en.getD "").length < 50) :
    process_build sem b = process_build sem2 b ∧
    (process_build sem b).isSaved = false := by
  have hd : (b.description_en.getD "" = "" ∨ (b.description_en.getD "").length < 50) :=
    Or.inr h
  have hl1 : layer1_reasons b =
      ["description_en不足(" ++ toString (b.description_en.getD "").length ++ "文字)"] := by
    unfold layer1_reasons
    rw [if_pos hd]
  unfold process_build
  by_cases hg : is_garbage_text (b.description_en.getD "") = true
  · simp [hg, RecordOutcome.isSaved]
  · simp only [Bool.not_eq_true] at hg
    simp [hg, hl1, RecordOutcome.isSaved]

/-- Witness for C2 at the concrete 10-character-description fixture, with
an always-pass and an always-reject semantic oracle. -/
theorem short_description_skipped_witness :
    process_build semPass build_c2 = process_build semReject build_c2 ∧
    (process_build semPass build_c2).isSaved = false :=
  short_description_skipped_before_semantic semPass semReject build_c2 (by decide)

/-- **C8**: the semantic layer is fail-open — a failed backing call, and a
completed call whose output yields no parseable JSON verdict, both produce
the verdict `valid = True, issues = []` — and an explicit invalid verdict
on a record that passed the first two layers makes the pipeline skip the
record, recording the reported issues. -/
theorem semantic_fail_open_spec :
    (∀ (svc : String → SvcResult) (parse : String → Option VerdictDict) (b : Build),
        svc (semantic_prompt b) = SvcResult.failed →
        validate_build_semantically svc parse b = ⟨some true, some []⟩) ∧
    (∀ (svc : String → SvcResult) (parse : String → Option VerdictDict) (b : Build)
        (out : String),
        svc (semantic_prompt b) = SvcResult.ok out → parse out = none →
        validate_build_semantically svc parse b = ⟨some true, some []⟩) ∧
    (∀ (sem : Build → VerdictDict) (b : Build),
        is_garbage_text (b.description_en.getD "") = false →
        layer1_reasons b = [] →
        pyFalsyS (sanitize_build b).pros_cons_en = false →
        pyFalsyS (sanitize_build b).core_equipment_en = false →
        (sem (sanitize_build b)).valid.getD true = false →
        process_build sem b =
          RecordOutcome.skippedSemantic
            ((sem (sanitize_build b)).issues.getD ["不明な問題"])) := by
  refine ⟨?_, ?_, ?_⟩
  · intro svc parse b hs
    unfold validate_build_semantically
    rw [hs]
  · intro svc parse b out hs hp
    unfold validate_build_semantically
    simp [hs, hp]
  · intro sem b hdesc hl1 hpros hcore hval
    unfold process_build
    simp [hdesc, hl1, hpros, hcore, hval]

/-- Witness for C8: concrete failed call, concrete unparseable output, and
a concrete explicit-invalid verdict on a layer-passing record. -/
theorem semantic_fail_open_spec_witness :
    validate_build_semantically (fun _ => SvcResult.failed) (fun _ => none) build_c8 =
      ⟨some true, some []⟩ ∧
    validate_build_semantically (fun _ => SvcResult.ok "no json in here") (fun _ => none)
      build_c8 = ⟨some true, some []⟩ ∧
    process_build semReject build_c8 = RecordOutcome.skippedSemantic ["概要が不適切"] := by
  refine ⟨semantic_fail_open_spec.1 _ _ build_c8 rfl,
          semantic_fail_open_spec.2.1 _ _ build_c8 "no json in here" rfl rfl, ?_⟩
  exact semantic_fail_open_spec.2.2 semReject build_c8
    (by decide) (by decide) (by decide) (by decide) (by decide)

/-- **C7 counterexample**: a maxroll raw record with a non-empty name and
no patch value at all is KEPT (with the default patch substituted), even
though its raw patch version truncates to `""`, which is not in the
allow-list — contradicting the claim that every such record is dropped. -/
theorem patch_filter_counterexample :
    maxrollRawNoPatch.patch = none ∧
    patchShortOf "" = "" ∧
    ¬ ("" ∈ Maxroll.ALLOWED_PATCHES) ∧
    (Maxroll._normalize_build (fun _ => none) maxrollRawNoPatch).isSome = true ∧
    (Maxroll._normalize_build (fun _ => none) maxrollRawNoPatch).map
      NormalizedBuild.patch = some "3.27" :=
  ⟨rfl, by decide, by decide, by decide, by decide⟩

/-- **C7** (amended): both normalizers drop a record with an empty
mandatory name.  The mobalytics normalizer drops exactly when the
truncated patch prefix is outside its allow-list (an empty or missing
patch truncates to `""` and is dropped) and otherwise returns a record
carrying the raw patch string.  The maxroll normalizer substitutes its
default patch `"3.27"` for an empty or missing raw patch before the
filter, so only a non-empty raw patch whose truncation is outside the
allow-list is dropped; when the (possibly defaulted) patch passes, the
record is kept and carries that patch string. -/
theorem normalizer_name_and_patch_filter :
    (∀ (raw : Mobalytics.MobaRaw) (tab : String),
        pyOrS raw.name (pyOrS raw.title "") = "" →
        Mobalytics._normalize_build raw tab = none) ∧
    (∀ (raw : Mobalytics.MobaRaw) (tab : String),
        patchShortOf (pyOrS raw.patchVersion (pyOrS raw.patch "")) ∉
          Mobalytics.ALLOWED_PATCHES →
        Mobalytics._normalize_build raw tab = none) ∧
    (∀ (raw : Mobalytics.MobaRaw) (tab : String),
        pyOrS raw.name (pyOrS raw.title "") ≠ "" →
        patchShortOf (pyOrS raw.patchVersion (pyOrS raw.patch "")) ∈
          Mobalytics.ALLOWED_PATCHES →
        (Mobalytics._normalize_build raw tab).isSome = true ∧
        (Mobalytics._normalize_build raw tab).map NormalizedBuild.patch =
          some (pyOrS raw.patchVersion (pyOrS raw.patch ""))) ∧
    (∀ (jl : String → Option (List String)) (raw : Maxroll.MaxrollRaw),
        pyOrS raw.name_en "" = "" →
        Maxroll._normalize_build jl raw = none) ∧
    (∀ (jl : String → Option (List String)) (raw : Maxroll.MaxrollRaw) (p : String),
        raw.patch = some p → p ≠ "" →
        patchShortOf p ∉ Maxroll.ALLOWED_PATCHES →
        Maxroll._normalize_build jl raw = none) ∧
    (∀ (jl : String → Option (List String)) (raw : Maxroll.MaxrollRaw),
        pyOrS raw.name_en "" ≠ "" →
        patchShortOf (pyOrS raw.patch Maxroll.DEFAULT_PATCH) ∈ Maxroll.ALLOWED_PATCHES →
        (Maxroll._normalize_build jl raw).isSome = true ∧
        (Maxroll._normalize_build jl raw).map NormalizedBuild.patch =
          some (pyOrS raw.patch Maxroll.DEFAULT_PATCH)) := by
  refine ⟨?_, ?_, ?_, ?_, ?_, ?_⟩
  · intro raw tab h
    unfold Mobalytics._normalize_build
    rw [if_pos h]
  · intro raw tab h
    unfold Mobalytics._normalize_build
    by_cases hn : pyOrS raw.name (pyOrS raw.title "") = ""
    · rw [if_pos hn]
    · rw [if_neg hn, if_pos h]
  · intro raw tab hn hp
    unfold Mobalytics._normalize_build
    rw [if_neg hn, if_neg (not_not_intro hp)]
    simp
  · intro jl raw h
    unfold Maxroll._normalize_build
    rw [if_pos h]
  · intro jl raw p hp hpne h
    unfold Maxroll._normalize_build
    by_cases hn : pyOrS raw.name_en "" = ""
    · rw [if_pos hn]
    · rw [if_neg hn]
      have hpatch : pyOrS raw.patch Maxroll.DEFAULT_PATCH = p := by
        rw [hp]
        simp [pyOrS, hpne]
      rw [hpatch, if_pos h]
  · intro jl raw hn hp
    unfold Maxroll._normalize_build
    rw [if_neg hn, if_neg (not_not_intro hp)]
    simp

/-- Witness for the amended C7 at the concrete patch strings of the
claim: `"3.25.1"` is dropped, `"3.27.2"` is kept and carried verbatim. -/
theorem normalizer_name_and_patch_filter_witness :
    Mobalytics._normalize_build mobaRawOldPatch "community" = none ∧
    (Mobalytics._normalize_build mobaRawNewPatch "verified").isSome = true ∧
    (Mobalytics._normalize_build mobaRawNewPatch "verified").map
      NormalizedBuild.patch = some "3.27.2" ∧
    Maxroll._normalize_build (fun _ => none) maxrollRawOldPatch = none := by
  refine ⟨?_, ?_, ?_, ?_⟩
  · exact normalizer_name_and_patch_filter.2.1 mobaRawOldPatch "community" (by decide)
  · exact (normalizer_name_and_patch_filter.2.2.1 mobaRawNewPatch "verified"
      (by decide) (by decide)).1
  · exact (normalizer_name_and_patch_filter.2.2.1 mobaRawNewPatch "verified"
      (by decide) (by decide)).2
  · exact normalizer_name_and_patch_filter.2.2.2.2.1 (fun _ => none) maxrollRawOldPatch
      "3.25.1" rfl (by decide) (by decide)

/-- Helper: string append adds lengths. -/
theorem strLength_append (a b : String) : (a ++ b).length = a.length + b.length := by
  cases a with
  | mk da =>
    cases b with
    | mk db =>
      show (da ++ db).length = da.length + db.length
      simp

/-- Helper: an encoded string is at least the two quotes long. -/
theorem two_le_jsonDumpStr_length (s : String) : 2 ≤ (jsonDumpStr s).length := by
  unfold jsonDumpStr
  rw [strLength_append, strLength_append]
  have h1 : ("\"" : String).length = 1 := rfl
  omega

/-- Helper: the serialization of a non-empty list is never the
empty-array literal. -/
theorem jsonDumpList_ne_empty (x : String) (xs : List String) :
    jsonDumpList (x :: xs) ≠ "[]" := by
  intro h
  have hlen := congrArg String.length h
  unfold jsonDumpList at hlen
  rw [strLength_append, strLength_append] at hlen
  have h2 : 2 ≤ (joinComma ((x :: xs).map jsonDumpStr)).length := by
    simp only [List.map_cons]
    cases hxs : xs.map jsonDumpStr with
    | nil =>
      have hx := two_le_jsonDumpStr_length x
      simpa [joinComma] using hx
    | cons y ys =>
      have hj : joinComma (jsonDumpStr x :: y :: ys) =
          jsonDumpStr x ++ ", " ++ joinComma (y :: ys) := rfl
      rw [hj, strLength_append, strLength_append]
      have hx := two_le_jsonDumpStr_length x
      omega
  have hlb : ("[" : String).length = 1 := rfl
  have hrb : ("]" : String).length = 1 := rfl
  have he : ("[]" : String).length = 2 := rfl
  omega

/-- Helper: the `if non-empty then dump else None` pattern of the
normalizers yields `None` or the serialization of a non-empty list, and
never the empty-array literal. -/
theorem serialize_opt_spec (l : List String) :
    ((if l.isEmpty then none else some (jsonDumpList l)) = none ∨
     ∃ m : List String, m ≠ [] ∧
       (if l.isEmpty then none else some (jsonDumpList l)) = some (jsonDumpList m)) ∧
    (if l.isEmpty then none else some (jsonDumpList l)) ≠ some "[]" := by
  cases l with
  | nil => simp
  | cons x xs =>
    constructor
    · exact Or.inr ⟨x :: xs, by simp, by simp⟩
    · simp only [List.isEmpty_cons, Bool.false_eq_true, if_false, ne_eq,
        Option.some.injEq]
      exact jsonDumpList_ne_empty x xs

/-- Helper: a list-shaped maxroll raw field survives `or []` as a list. -/
theorem pyOrSL_of_listShaped (a : Option Maxroll.PyStrOrList)
    (h : isListShapedB a = true) :
    ∃ l : List String, Maxroll.pyOrSL a = .plist l := by
  cases a with
  | none => exact ⟨[], rfl⟩
  | some v =>
    cases v with
    | pstr s => simp [isListShapedB] at h
    | plist l =>
      by_cases hl : l.isEmpty
      · exact ⟨[], by simp [Maxroll.pyOrSL, hl]⟩
      · exact ⟨l, by simp [Maxroll.pyOrSL, hl]⟩

/-- Helper: `serializeField` on a list value matches the if-pattern. -/
theorem serializeField_plist (l : List String) :
    Maxroll.serializeField (.plist l) =
      (if l.isEmpty then none else some (jsonDumpList l)) := rfl

/-- **C9 counterexample**: the youtube transcript extractor always sets
`skills_en` and `build_types` to the empty-array literal, so a normalized
record CAN carry `"[]"` in a list-shaped field, contradicting the claim. -/
theorem empty_array_literal_counterexample :
    (Youtube.extract_build_from_transcript genFixed parseFixed videoFixed
        "some transcript").map (fun b => (b.skills_en, b.build_types)) =
      some (some "[]", some "[]") := by decide

/-- **C9** (amended): the mobalytics and maxroll normalizers serialize
each list-shaped field to a JSON array string when the underlying list is
non-empty and to `None` when it is empty, and never emit the empty-array
literal (for maxroll, on raw inputs whose list fields are list-shaped, as
its in-repository caller supplies); the youtube transcript extractor,
however, sets `skills_en` and `build_types` to the literal `"[]"` on every
record it returns. -/
theorem list_field_serialization :
    (∀ (raw : Mobalytics.MobaRaw) (tab : String) (b : NormalizedBuild),
        Mobalytics._normalize_build raw tab = some b →
        (b.skills_en = none ∨
          ∃ l : List String, l ≠ [] ∧ b.skills_en = some (jsonDumpList l)) ∧
        (b.build_types = none ∨
          ∃ l : List String, l ≠ [] ∧ b.build_types = some (jsonDumpList l)) ∧
        b.playstyle = none ∧ b.activities = none ∧ b.damage_types = none ∧
        b.skills_en ≠ some "[]" ∧ b.build_types ≠ some "[]") ∧
    (∀ (jl : String → Option (List String)) (raw : Maxroll.MaxrollRaw)
        (b : NormalizedBuild),
        isListShapedB raw.skills_en = true →
        isListShapedB raw.build_types = true →
        isListShapedB raw.playstyle = true →
        isListShapedB raw.activities = true →
        isListShapedB raw.damage_types = true →
        Maxroll._normalize_build jl raw = some b →
        (b.skills_en = none ∨
          ∃ l : List String, l ≠ [] ∧ b.skills_en = some (jsonDumpList l)) ∧
        (b.build_types = none ∨
          ∃ l : List String, l ≠ [] ∧ b.build_types = some (jsonDumpList l)) ∧
        (b.playstyle = none ∨
          ∃ l : List String, l ≠ [] ∧ b.playstyle = some (jsonDumpList l)) ∧
        (b.activities = none ∨
          ∃ l : List String, l ≠ [] ∧ b.activities = some (jsonDumpList l)) ∧
        (b.damage_types = none ∨
          ∃ l : List String, l ≠ [] ∧ b.damage_types = some (jsonDumpList l)) ∧
        b.skills_en ≠ some "[]" ∧ b.build_types ≠ some "[]" ∧
        b.playstyle ≠ some "[]" ∧ b.activities ≠ some "[]" ∧
        b.damage_types ≠ some "[]") ∧
    (∀ (gen : String → Option String) (parseSections : String → DraftFields)
        (v : Youtube.Video) (t : String) (b : NormalizedBuild),
        Youtube.extract_build_from_transcript gen parseSections v t = some b →
        b.skills_en = some "[]" ∧ b.build_types = some "[]") := by
  refine ⟨?_, ?_, ?_⟩
  · intro raw tab b h
    simp only [Mobalytics._normalize_build] at h
    by_cases hn : pyOrS raw.name (pyOrS raw.title "") = ""
    · rw [if_pos hn] at h
      exact absurd h (by simp)
    · rw [if_neg hn] at h
      by_cases hp : patchShortOf (pyOrS raw.patchVersion (pyOrS raw.patch "")) ∉
          Mobalytics.ALLOWED_PATCHES
      · rw [if_pos hp] at h
        exact absurd h (by simp)
      · rw [if_neg hp, Option.some.injEq] at h
        subst h
        exact ⟨(serialize_opt_spec (Mobalytics.rawSkills raw)).1,
               (serialize_opt_spec (Mobalytics.rawBuildTypes raw)).1,
               rfl, rfl, rfl,
               (serialize_opt_spec (Mobalytics.rawSkills raw)).2,
               (serialize_opt_spec (Mobalytics.rawBuildTypes raw)).2⟩
  · intro jl raw b h1 h2 h3 h4 h5 h
    obtain ⟨ls, hls⟩ := pyOrSL_of_listShaped raw.skills_en h1
    obtain ⟨lb, hlb⟩ := pyOrSL_of_listShaped raw.build_types h2
    obtain ⟨lp, hlp⟩ := pyOrSL_of_listShaped raw.playstyle h3
    obtain ⟨la, hla⟩ := pyOrSL_of_listShaped raw.activities h4
    obtain ⟨ld, hld⟩ := pyOrSL_of_listShaped raw.damage_types h5
    simp only [Maxroll._normalize_build] at h
    by_cases hn : pyOrS raw.name_en "" = ""
    · rw [if_pos hn] at h
      exact absurd h (by simp)
    · rw [if_neg hn] at h
      by_cases hp : patchShortOf (pyOrS raw.patch Maxroll.DEFAULT_PATCH) ∉
          Maxroll.ALLOWED_PATCHES
      · rw [if_pos hp] at h
        exact absurd h (by simp)
      · rw [if_neg hp, Option.some.injEq] at h
        subst h
        refine ⟨?_, ?_, ?_, ?_, ?_, ?_, ?_, ?_, ?_, ?_⟩ <;>
          simp only [hls, hlb, hlp, hla, hld, serializeField_plist]
        · exact (serialize_opt_spec ls).1
        · exact (serialize_opt_spec lb).1
        · exact (serialize_opt_spec lp).1
        · exact (serialize_opt_spec la).1
        · exact (serialize_opt_spec ld).1
        · exact (serialize_opt_spec ls).2
        · exact (serialize_opt_spec lb).2
        · exact (serialize_opt_spec lp).2
        · exact (serialize_opt_spec la).2
        · exact (serialize_opt_spec ld).2
  · intro gen parseSections v t b h
    simp only [Youtube.extract_build_from_transcript] at h
    rcases hd : (extract_build_info_via_llm gen parseSections
        (Youtube.transcriptPromptPrefix ++ t) v.title).description_en with _ | desc
    · rw [hd] at h
      exact absurd h (by simp)
    · rw [hd] at h
      by_cases hde : desc = ""
      · simp [hde] at h
      · simp only [if_neg hde, Option.some.injEq] at h
        subst h
        exact ⟨rfl, rfl⟩

/-- Witness for the amended C9: a concrete youtube record carries the
empty-array literals; a concrete mobalytics record has a null playstyle
and a properly serialized non-empty skills list. -/
theorem list_field_serialization_witness :
    (Youtube.extract_build_from_transcript genFixed parseFixed videoFixed
        "witness transcript").map (fun b => (b.skills_en, b.build_types)) =
      some (some "[]", some "[]") ∧
    (Mobalytics._normalize_build mobaRawWithSkill "community").map
      NormalizedBuild.playstyle = some none := by
  constructor
  · cases hE : Youtube.extract_build_from_transcript genFixed parseFixed videoFixed
        "witness transcript" with
    | none => exact absurd hE (by decide)
    | some b =>
      have h := list_field_serialization.2.2 genFixed parseFixed videoFixed
        "witness transcript" b hE
      simp [h.1, h.2]
  · cases hm : Mobalytics._normalize_build mobaRawWithSkill "community" with
    | none => exact absurd hm (by decide)
    | some b =>
      have h := list_field_serialization.1 mobaRawWithSkill "community" b hm
      simp [h.2.2.1]
